import Mathlib

/-!
Shallow embedding of `src/librarian/controller.py` (psilabs-dev/librarian).

The controller is a thin orchestration layer over an external collaborator
`LibraryService` (out of scope per the spec, §1/§6).  We model:

* controller state as a record of the six persisted fields; fields are
  `Option`-typed because Python stores `None` in them when a metadata file
  is missing keys (`data.get(...)` returns `None`);
* timestamps abstractly as `Nat` (the code only copies them around; no
  arithmetic is performed on them);
* the service as an oracle of the two queries whose answers the controller
  branches on (`is_project`, `list_projects`); every call the controller
  makes to the service is additionally recorded in an interaction trace
  (`ServiceCall`), so that "same service calls" claims are statable;
* exceptions (`FolderCollisionException`, `InvalidProjectException`) as an
  error type; an operation that raises is an operation returning the error
  together with the state as mutated before the raise point;
* console printing is not modelled: `print` never affects state or the
  service, and interactive `input` answers are passed as explicit arguments.
-/

namespace Librarian

/-- The two first-class error kinds raised by the controller
(`FolderCollisionException`, `InvalidProjectException`). -/
inductive LibErr where
  | folderCollision : LibErr
  | invalidProject (name : String) : LibErr
deriving DecidableEq, Repr

/-- One call the controller makes to the external `LibraryService`.
`is_project` may receive `None` (the code passes `self.current_project`
directly in `display_status`), hence the `Option String` argument. -/
inductive ServiceCall where
  | isProject (name : Option String) : ServiceCall
  | createProject (name : String) : ServiceCall
  | copyProject (src : String) (dst : Option String) : ServiceCall
  | pullProject (name : String) : ServiceCall
  | pushProject (name : String) : ServiceCall
  | listProjects (pattern : Option String) : ServiceCall
  | deleteProjects (names : List String) (safe : Bool) : ServiceCall
deriving DecidableEq, Repr

/-- Oracle model of the external `LibraryService`: the two queries whose
answers the controller's control flow depends on.  (The remaining service
operations are fire-and-forget from the controller's point of view; they are
recorded in the `ServiceCall` trace only.  `copy_project`'s return value
influences console output only, which is not modelled.) -/
structure LibraryService where
  is_project : Option String → Bool
  list_projects : Option String → List String

/-- The six fields of `LibrarianController` state (mirrors `__init__`).
Fields are `Option`-typed: when hydrated from a metadata file with missing
keys, Python's `data.get` yields `None`. -/
structure ControllerState where
  library_path : Option String
  workspace_path : Option String
  current_project : Option String
  create_time : Option Nat
  modify_time : Option Nat
  sync_targets : Option (List String)
deriving DecidableEq, Repr

/-- Result of a controller action: the state after the action (reflecting
any mutation performed before a raise point), the exception raised if any,
and the trace of service calls made. -/
structure OpResult where
  state : ControllerState
  error : Option LibErr
  calls : List ServiceCall
deriving DecidableEq, Repr

/-- The flat mapping written to `librarian.yaml` by `update_metadata`:
exactly the six recognized keys, always all written.  The modify-time slot
is written from `time.time()` directly, hence non-optional. -/
structure MetadataFile where
  library_path : Option String
  workspace_path : Option String
  current_project : Option String
  create_time : Option Nat
  modify_time : Nat
  sync_targets : Option (List String)
deriving DecidableEq, Repr

/-- The content of the metadata file when one exists at construction time
(after `yaml.safe_load` and `.get` per key: any key may be absent). -/
structure FileData where
  library_path : Option String
  workspace_path : Option String
  current_project : Option String
  create_time : Option Nat
  modify_time : Option Nat
  sync_targets : Option (List String)
deriving DecidableEq, Repr

/-- `LibrarianController.__init__`.  `fileData = some d` models
`os.path.exists(LIBRARIAN_FILEPATH)` being true with the file parsing to
`d`; `prompted_library` / `prompted_workspace` are the values `get_path`
would return when the corresponding argument is `None` (`get_path` only
ever returns a confirmed path or aborts the process, per the spec §4.1). -/
def initController (fileData : Option FileData)
    (library_path workspace_path : Option String)
    (sync_targets : Option (List String))
    (prompted_library prompted_workspace : String) (now : Nat) :
    Except LibErr ControllerState :=
  match fileData with
  | some d =>
      Except.ok ⟨d.library_path, d.workspace_path, d.current_project,
                 d.create_time, d.modify_time, d.sync_targets⟩
  | none =>
      let lib := match library_path with
        | none => prompted_library
        | some p => p
      let ws := match workspace_path with
        | none => prompted_workspace
        | some p => p
      if lib = ws then
        Except.error LibErr.folderCollision
      else
        let st := match sync_targets with
          | none => ["UserData"]
          | some ts => if ts.length = 0 then ["UserData"] else ts
        Except.ok ⟨some lib, some ws, none, some now, some now, some st⟩

/-- `LibrarianController.update_metadata`: writes all six keys to the file,
stamping the modify-time key with `time.time()` (`now`); the in-memory
object is not mutated, so the state component of the result is the input
state unchanged. -/
def update_metadata (s : ControllerState) (now : Nat) :
    ControllerState × MetadataFile :=
  (s, ⟨s.library_path, s.workspace_path, s.current_project,
       s.create_time, now, s.sync_targets⟩)

/-- `LibrarianController._unassign_project`: clears the slot when occupied,
otherwise a no-op (the difference is console output only). -/
def unassign_project (s : ControllerState) : ControllerState :=
  match s.current_project with
  | none => s
  | some _ => { s with current_project := none }

/-- `LibrarianController._assign_project`: queries `is_project`; raises
`InvalidProjectException` (before any mutation) unless confirmed; otherwise
unassigns any prior project and sets the slot to `project_name`. -/
def assign_project (svc : LibraryService) (s : ControllerState)
    (project_name : String) : OpResult :=
  if svc.is_project (some project_name) then
    let s1 := if s.current_project = none then s else unassign_project s
    { state := { s1 with current_project := some project_name },
      error := none,
      calls := [ServiceCall.isProject (some project_name)] }
  else
    { state := s,
      error := some (LibErr.invalidProject project_name),
      calls := [ServiceCall.isProject (some project_name)] }

/-- `LibrarianController.assign`: delegates to `_assign_project`. -/
def assign (svc : LibraryService) (s : ControllerState)
    (project_name : String) : OpResult :=
  assign_project svc s project_name

/-- `LibrarianController.display_status`: queries `is_project` on the raw
`current_project` slot (possibly `None`); on a negative answer the slot is
cleared before the status is printed. -/
def display_status (svc : LibraryService) (s : ControllerState) :
    ControllerState × List ServiceCall :=
  let s1 := if svc.is_project s.current_project then s
            else { s with current_project := none }
  (s1, [ServiceCall.isProject s.current_project])

/-- `LibrarianController.pull`: syncs library → workspace for the current
project when one is assigned; otherwise only prints. -/
def pull (s : ControllerState) : ControllerState × List ServiceCall :=
  match s.current_project with
  | some p => (s, [ServiceCall.pullProject p])
  | none => (s, [])

/-- `LibrarianController.push`: syncs workspace → library for the current
project when one is assigned; otherwise only prints. -/
def push (s : ControllerState) : ControllerState × List ServiceCall :=
  match s.current_project with
  | some p => (s, [ServiceCall.pushProject p])
  | none => (s, [])

/-- Helper for `os.path.split`: splits a character list at the last `/`,
returning `(head-including-the-slash, tail-after-it)`, or `none` when no
slash occurs (mirrors `p[:i], p[i:]` with `i = p.rfind(sep) + 1`). -/
def splitLast : List Char → Option (List Char × List Char)
  | [] => none
  | c :: cs =>
      match splitLast cs with
      | some (h, t) => some (c :: h, t)
      | none => if c = '/' then some ([c], cs) else none

/-- Python's `head.rstrip(sep)`: drop trailing slashes. -/
def rstripSlashes (l : List Char) : List Char :=
  (l.reverse.dropWhile (fun c => c = '/')).reverse

/-- Whether a character list consists only of slashes
(`head == sep * len(head)` in `posixpath.split`, for nonempty `head`). -/
def isAllSlashes (l : List Char) : Bool :=
  l.all (fun c => c = '/')

/-- `os.path.split` on POSIX paths: tail is everything after the final
slash; head is everything before it, with trailing slashes stripped unless
head is all slashes. -/
def path_split (p : String) : String × String :=
  match splitLast p.toList with
  | none => ("", p)
  | some (h, t) =>
      let head := if isAllSlashes h then h else rstripSlashes h
      (⟨head⟩, ⟨t⟩)

/-- First character is a slash (`b.startswith(sep)`). -/
def startsWithSlash : List Char → Bool
  | [] => false
  | c :: _ => c = '/'

/-- Last character is a slash (`path.endswith(sep)`). -/
def endsWithSlash (l : List Char) : Bool :=
  startsWithSlash l.reverse

/-- Two-argument `os.path.join` on POSIX paths. -/
def path_join (a b : String) : String :=
  if startsWithSlash b.toList then b
  else if a = "" ∨ endsWithSlash a.toList then a ++ b
  else a ++ "/" ++ b

/-- `LibrarianController.copy_full`: delegates to the service with `dst`
verbatim; the service's resolved destination (possibly `None`) affects only
console output, so the state is unchanged either way. -/
def copy_full (s : ControllerState) (src : String) (dst : Option String) :
    ControllerState × List ServiceCall :=
  (s, [ServiceCall.copyProject src dst])

/-- `LibrarianController.copy_relative`: destination is the directory
component of `src` joined with `dst`, then full-mode copy. -/
def copy_relative (s : ControllerState) (src dst : String) :
    ControllerState × List ServiceCall :=
  copy_full s src (some (path_join (path_split src).1 dst))

/-- `LibrarianController.copy`: full mode when `long` or `dst is None`,
relative mode otherwise. -/
def copy (s : ControllerState) (src : String) (dst : Option String)
    (long : Bool) : ControllerState × List ServiceCall :=
  match long, dst with
  | true, _ => copy_full s src dst
  | false, none => copy_full s src none
  | false, some d => copy_relative s src d

/-- `LibrarianController.create`: create via the service, then go through
the assign transition. -/
def create (svc : LibraryService) (s : ControllerState)
    (project_name : String) : OpResult :=
  let r := assign_project svc s project_name
  { r with calls := ServiceCall.createProject project_name :: r.calls }

/-- `LibrarianController.load_project`.  `confirm` is the operator's answer
to the overwrite prompt (only consulted when a different project is
assigned).  Mirrors the recursive retry: on a confirmed overwrite the slot
is cleared and the method re-invokes itself; the re-invocation then takes
the assign-and-pull branch. -/
def load_project (svc : LibraryService) (confirm : String) (name : String)
    (s : ControllerState) : OpResult :=
  if s.current_project = none ∨ s.current_project = some name then
    let r := assign_project svc s name
    match r.error with
    | some _ => r
    | none =>
        let p := pull r.state
        { state := p.1, error := none, calls := r.calls ++ p.2 }
  else
    if confirm = "y" then
      load_project svc confirm name { s with current_project := none }
    else
      { state := s, error := none, calls := [] }
termination_by (match s.current_project with | none => 0 | some _ => 1)
decreasing_by
  simp_wf
  cases hc : s.current_project <;> simp_all

/-- `assign(X)` followed by `pull()` as two consecutive controller actions:
if the assign raises, the pull never runs. -/
def assign_then_pull (svc : LibraryService) (s : ControllerState)
    (name : String) : OpResult :=
  let r := assign svc s name
  match r.error with
  | some _ => r
  | none =>
      let p := pull r.state
      { state := p.1, error := none, calls := r.calls ++ p.2 }

/-- `LibrarianController.list_projects`: queries the service, sorts the
names, prints them; read-only with respect to controller state.  Returns
the sorted listing (what gets printed) and the trace. -/
def list_projects (svc : LibraryService) (s : ControllerState)
    (pattern : Option String) :
    ControllerState × List String × List ServiceCall :=
  (s, (svc.list_projects pattern).mergeSort (· ≤ ·),
   [ServiceCall.listProjects pattern])

/-- `LibrarianController.delete_projects`, with explicit recursion fuel:
the Python method re-invokes itself after resolving an empty name list via
`list_projects`; the re-invocation passes `pattern = None` and omits `safe`
(so `safe` reverts to its default `True`).  `none` means the recursion did
not finish within `fuel` steps; since every run needs at most 2 steps when
it terminates at all, `none` at every fuel witnesses non-termination. -/
def delete_projects (svc : LibraryService) :
    Nat → ControllerState → List String → Option String → Bool →
    Option (ControllerState × List ServiceCall)
  | 0, _, _, _, _ => none
  | fuel + 1, s, project_names, pattern, safe =>
      if project_names.length = 0 then
        let resolved := svc.list_projects pattern
        match delete_projects svc fuel s resolved none true with
        | none => none
        | some (s', calls) =>
            some (s', ServiceCall.listProjects pattern :: calls)
      else
        let hit := match s.current_project with
          | some p => project_names.contains p
          | none => false
        let s' := if hit then unassign_project s else s
        some (s', [ServiceCall.deleteProjects project_names safe])

/-- Test fixture: a service that recognizes no project and lists nothing
(an empty library). -/
def svcNone : LibraryService :=
  { is_project := fun _ => false, list_projects := fun _ => [] }

/-- Test fixture: a service that recognizes every name and lists exactly
`["A"]` for every pattern. -/
def svcAll : LibraryService :=
  { is_project := fun _ => true, list_projects := fun _ => ["A"] }

/-- Test fixture: a freshly initialized state (no current project). -/
def st0 : ControllerState :=
  ⟨some "/lib", some "/ws", none, some 0, some 0, some ["UserData"]⟩

/-- Test fixture: a state with project `"Y"` currently assigned. -/
def stY : ControllerState :=
  { st0 with current_project := some "Y" }

/-- C1, counterexample: when a metadata file already exists, construction
succeeds even though the explicitly supplied `library_path` and
`workspace_path` are equal — no `FolderCollision` is raised, refuting
"regardless of whether a metadata file already exists". -/
theorem initController_collision_cex :
    initController (some ⟨none, none, none, none, none, none⟩)
        (some "/x") (some "/x") none "pl" "pw" 0
      = Except.ok ⟨none, none, none, none, none, none⟩
    ∧ initController (some ⟨none, none, none, none, none, none⟩)
        (some "/x") (some "/x") none "pl" "pw" 0
      ≠ Except.error LibErr.folderCollision := by
  refine ⟨rfl, ?_⟩
  intro h
  exact Except.noConfusion h

/-- C1, amended: when no metadata file exists, construction fails with
`FolderCollision` exactly when the effective library path (explicit
argument, else the prompted path) equals the effective workspace path,
regardless of `sync_targets` and of whether the paths were supplied
explicitly or prompted. -/
theorem initController_collision (library_path workspace_path : Option String)
    (sync_targets : Option (List String))
    (prompted_library prompted_workspace : String) (now : Nat)
    (h : library_path.getD prompted_library
          = workspace_path.getD prompted_workspace) :
    initController none library_path workspace_path sync_targets
        prompted_library prompted_workspace now
      = Except.error LibErr.folderCollision := by
  cases library_path <;> cases workspace_path <;>
    simp_all [initController, Option.getD]

/-- C1, witness for `initController_collision` at a concrete input (one
path explicit, the other prompted, both equal). -/
theorem initController_collision_witness :
    initController none (some "/x") none none "pl" "/x" 0
      = Except.error LibErr.folderCollision :=
  initController_collision (some "/x") none none "pl" "/x" 0 rfl

/-- C3: `assign` succeeds exactly when the service confirms the name; when
the service does not confirm it, `InvalidProjectException` is raised and
the state — in particular `current_project` — is unchanged. -/
theorem assign_invalid_project (svc : LibraryService) (s : ControllerState)
    (name : String) :
    ((assign svc s name).error = none ↔ svc.is_project (some name) = true)
    ∧ (svc.is_project (some name) = false →
        assign svc s name
          = ⟨s, some (LibErr.invalidProject name),
              [ServiceCall.isProject (some name)]⟩) := by
  cases h : svc.is_project (some name) <;>
    simp [assign, assign_project, h]

/-- C3, witness: with a service that recognizes nothing,
`assign "Proj1"` raises `InvalidProject` and leaves the state unchanged. -/
theorem assign_invalid_project_witness :
    assign svcNone st0 "Proj1"
      = ⟨st0, some (LibErr.invalidProject "Proj1"),
          [ServiceCall.isProject (some "Proj1")]⟩ :=
  (assign_invalid_project svcNone st0 "Proj1").2 rfl

/-- C4: when the service confirms `name`, `assign name` ends with
`current_project = name` regardless of what was previously assigned, and a
second `assign name` also succeeds and again ends with
`current_project = name` (idempotent end state). -/
theorem assign_idempotent (svc : LibraryService) (s : ControllerState)
    (name : String) (h : svc.is_project (some name) = true) :
    (assign svc s name).error = none
    ∧ (assign svc s name).state.current_project = some name
    ∧ (assign svc (assign svc s name).state name).error = none
    ∧ (assign svc (assign svc s name).state name).state.current_project
        = some name := by
  simp [assign, assign_project, h]

/-- C4, witness: assigning `"X"` over a previously assigned `"Y"` and then
assigning `"X"` again ends with `current_project = "X"` both times. -/
theorem assign_idempotent_witness :
    (assign svcAll stY "X").state.current_project = some "X"
    ∧ (assign svcAll (assign svcAll stY "X").state "X").state.current_project
        = some "X" := by
  have h := assign_idempotent svcAll stY "X" rfl
  exact ⟨h.2.1, h.2.2.2⟩

/-- C5: when no project is assigned or the assigned project is `name`
itself, `load_project` is the composite of the `assign` action followed by
the `pull` action: same resulting state, same error, same service-call
trace. -/
theorem load_project_equiv_assign_pull (svc : LibraryService)
    (confirm name : String) (s : ControllerState)
    (h : s.current_project = none ∨ s.current_project = some name) :
    load_project svc confirm name s = assign_then_pull svc s name := by
  rw [load_project, if_pos h]
  rfl

/-- C5, witness: on the fresh state (no current project), loading `"X"`
equals assign-then-pull for `"X"`. -/
theorem load_project_equiv_assign_pull_witness :
    load_project svcAll "irrelevant" "X" st0 = assign_then_pull svcAll st0 "X" :=
  load_project_equiv_assign_pull svcAll "irrelevant" "X" st0 (Or.inl rfl)

/-- C6: when a different project is assigned and the operator answers
anything but `"y"` to the overwrite prompt, `load_project` returns with the
state unchanged, no error, and no service call at all. -/
theorem load_project_decline (svc : LibraryService) (confirm name y : String)
    (s : ControllerState) (hy : s.current_project = some y) (hne : y ≠ name)
    (hc : confirm ≠ "y") :
    load_project svc confirm name s
      = { state := s, error := none, calls := [] } := by
  have h1 : ¬(s.current_project = none ∨ s.current_project = some name) := by
    simp [hy]
    exact hne
  rw [load_project, if_neg h1, if_neg hc]

/-- C6, witness: with `"Y"` assigned, answering `"n"` to the overwrite
prompt leaves the state `stY` unchanged with an empty call trace. -/
theorem load_project_decline_witness :
    load_project svcAll "n" "X" stY
      = { state := stY, error := none, calls := [] } :=
  load_project_decline svcAll "n" "X" "Y" stY rfl (by decide) (by decide)

/-- C7: `copy` takes the full-naming path when `long` is set or the
destination is unset, and otherwise delegates to full-mode copy with the
directory component of `src` joined to `dst`; concretely,
`copy "a/b" "c" long:=false` delegates with destination `"a/c"`. -/
theorem copy_modes (s : ControllerState) (src d : String) :
    (∀ long : Bool, copy s src none long = copy_full s src none)
    ∧ copy s src (some d) true = copy_full s src (some d)
    ∧ copy s src (some d) false
        = copy_full s src (some (path_join (path_split src).1 d))
    ∧ path_join (path_split "a/b").1 "c" = "a/c" := by
  refine ⟨fun long => ?_, rfl, rfl, by decide⟩
  cases long <;> rfl

/-- C8, counterexample: `update_metadata` stamps the persisted modify-time
with the current time but does not update the in-memory `modify_time`
field — on `st0` (whose `modify_time` is `0`) persisting at time `10`
leaves the state's `modify_time` at `0`, not `10`. -/
theorem update_metadata_state_cex :
    (update_metadata st0 10).1.modify_time = some 0
    ∧ (update_metadata st0 10).1.modify_time ≠ some 10
    ∧ (update_metadata st0 10).2.modify_time = 10 := by decide

/-- C8, amended: `update_metadata` writes exactly the six fields, with the
persisted modify-time equal to the current time and the persisted
create-time equal to the state's `create_time`; the in-memory state is
left entirely unchanged (in particular its `modify_time` keeps its prior
value and `create_time` is never changed by persisting). -/
theorem update_metadata_fields (s : ControllerState) (now : Nat) :
    (update_metadata s now).2.modify_time = now
    ∧ (update_metadata s now).2.create_time = s.create_time
    ∧ (update_metadata s now).2.library_path = s.library_path
    ∧ (update_metadata s now).2.workspace_path = s.workspace_path
    ∧ (update_metadata s now).2.current_project = s.current_project
    ∧ (update_metadata s now).2.sync_targets = s.sync_targets
    ∧ (update_metadata s now).1 = s := by
  exact ⟨rfl, rfl, rfl, rfl, rfl, rfl, rfl⟩

/-- C9: `display_status` mutates the state: when the service does not
confirm the current project the slot is cleared (in particular it reports
`none` when the slot was already empty), and when the service confirms it
the state is unchanged; the service is queried on the raw slot value. -/
theorem display_status_clears (svc : LibraryService) (s : ControllerState) :
    (svc.is_project s.current_project = false →
        (display_status svc s).1.current_project = none)
    ∧ (svc.is_project s.current_project = true →
        (display_status svc s).1 = s)
    ∧ (s.current_project = none →
        (display_status svc s).1.current_project = none)
    ∧ (display_status svc s).2 = [ServiceCall.isProject s.current_project] := by
  refine ⟨?_, ?_, ?_, rfl⟩
  · intro h
    simp [display_status, h]
  · intro h
    simp [display_status, h]
  · intro h
    by_cases hp : svc.is_project s.current_project = true
    · rw [h] at hp
      simp [display_status, hp, h]
    · simp only [Bool.not_eq_true] at hp
      simp [display_status, hp]

/-- C9, witness: with `"Y"` assigned but unknown to the service,
`display_status` clears the slot. -/
theorem display_status_clears_witness :
    (display_status svcNone stY).1.current_project = none :=
  (display_status_clears svcNone stY).1 rfl

/-- C2, counterexample: with the caller passing `safe := false` and an
empty name list, the pattern is resolved to `["A"]` and the service's
delete is invoked with `safe = true` (the default restored by the
recursive call), not the caller's flag. -/
theorem delete_projects_safe_cex :
    delete_projects svcAll 2 st0 [] (some "*") false
      = some (st0, [ServiceCall.listProjects (some "*"),
                    ServiceCall.deleteProjects ["A"] true])
    ∧ delete_projects svcAll 2 st0 [] (some "*") false
      ≠ some (st0, [ServiceCall.listProjects (some "*"),
                    ServiceCall.deleteProjects ["A"] false]) := by decide

/-- C2, amended: with a non-empty name list the service's delete receives
exactly those names and the caller's `safe` flag; with an empty name list
and a pattern whose listing is non-empty, the names are resolved by
listing, and the delete receives the resolved list, cleared pattern, and
`safe = true` (the default, not the caller's flag); in both cases the
current project is unassigned when it is among the deleted names. -/
theorem delete_projects_behavior (svc : LibraryService) (s : ControllerState)
    (names : List String) (pat : Option String) (safe : Bool) (fuel : Nat) :
    (names ≠ [] →
      delete_projects svc (fuel + 1) s names pat safe
        = some ((if (match s.current_project with
                     | some p => names.contains p
                     | none => false) then unassign_project s else s),
                [ServiceCall.deleteProjects names safe]))
    ∧ (svc.list_projects pat ≠ [] →
      delete_projects svc (fuel + 2) s [] pat safe
        = some ((if (match s.current_project with
                     | some p => (svc.list_projects pat).contains p
                     | none => false) then unassign_project s else s),
                [ServiceCall.listProjects pat,
                 ServiceCall.deleteProjects (svc.list_projects pat) true])) := by
  constructor
  · intro h
    simp [delete_projects, List.length_eq_zero, h]
  · intro h
    have hlen : (svc.list_projects pat).length ≠ 0 := by
      simpa [List.length_eq_zero] using h
    simp [delete_projects, List.length_eq_zero, h]

/-- C2, witness for `delete_projects_behavior`: explicit names keep the
caller's `safe = false`; an empty name list resolves via listing and
deletes the resolved `["A"]`. -/
theorem delete_projects_behavior_witness :
    delete_projects svcAll 1 st0 ["A"] (some "*") false
      = some (st0, [ServiceCall.deleteProjects ["A"] false])
    ∧ delete_projects svcAll 2 stY [] (some "*") false
      = some (stY, [ServiceCall.listProjects (some "*"),
                    ServiceCall.deleteProjects ["A"] true]) := by
  constructor
  · have h := (delete_projects_behavior svcAll st0 ["A"] (some "*") false 0).1
      (by decide)
    simpa [st0] using h
  · have h := (delete_projects_behavior svcAll stY [] (some "*") false 0).2
      (by decide)
    simpa [stY, st0, svcAll] using h

/-- C10: on a service whose listing is empty, `delete_projects` with an
empty name list never terminates: the recursion exhausts every finite
fuel bound (each step re-resolves the empty listing and re-invokes itself
with an empty list and cleared pattern). -/
theorem delete_projects_diverges (fuel : Nat) (s : ControllerState)
    (pat : Option String) (safe : Bool) :
    delete_projects svcNone fuel s [] pat safe = none := by
  induction fuel generalizing pat safe with
  | zero => rfl
  | succ n ih =>
      have hres : svcNone.list_projects pat = [] := rfl
      simp [delete_projects, hres, ih none true]

end Librarian
